import Mathlib

/-!
Verification of the FruitNinja gesture-game core.

Shallow embedding of the repository's Python sources:
  * `src/game/config.py`    — `GameConfig` constants
  * `src/game/score.py`     — `ScoreManager`
  * `src/game/collision.py` — `CollisionDetector`
  * `src/game/fruit.py`     — `Fruit` spawn-velocity solver, `is_off_screen`
  * `src/game/physics.py`   — `PhysicsEngine.apply_physics`
  * `src/game/engine.py`    — the Playing-state per-tick update
  * `src/gesture/tracker.py`— `GestureTracker.update_landmarks`

Numeric values are modelled exactly over `ℚ` (the Python code computes with
floats; the spec's statements are about the exact mathematical values).
`math.sqrt` is handled two ways: where the code only floors the result we use
an exact rational floor-square-root; where the result value itself flows on,
the square-root function is an explicit parameter constrained in theorems by
the properties a square root satisfies.
-/

/- Batteries marks the rational-arithmetic primitives `@[irreducible]`, which
prevents `decide` from evaluating concrete game states.  All definitions here
are exact over `ℚ`, so evaluation is sound; restore reducibility locally. -/
attribute [local semireducible] Rat.mul Rat.add Rat.sub Rat.inv

namespace FruitNinja

/-! ### Configuration constants (`src/game/config.py`) -/

def WINDOW_WIDTH : ℚ := 800
def WINDOW_HEIGHT : ℚ := 600
def MAX_MISSED_FRUITS : ℤ := 5
def FRUIT_RADIUS : ℚ := 40
def FRUIT_VELOCITY : ℚ := 500
def GRAVITY : ℚ := 720
def BASE_SCORE_PER_FRUIT : ℚ := 10
def COMBO_MULTIPLIER : ℚ := 3/2

/-- Python's `int()` conversion: truncation toward zero. -/
def pyInt (q : ℚ) : ℤ := if 0 ≤ q then ⌊q⌋ else ⌈q⌉

/-! ### ScoreManager (`src/game/score.py`)

`GameConfig.GAME_DURATION` is referenced by `ScoreManager.update_game_time`
and `score_manager.set_game_duration` is called by the engine, but neither is
defined anywhere under the sources.  Modelled from the spec: the configured
game duration (`duration: float > 0`, selectable on the title screen) is an
explicit parameter `duration` of the operations that read it. -/

structure ScoreState where
  score : ℤ
  combo : ℤ
  max_combo : ℤ
  missed_fruits : ℤ
  game_time : ℚ
  game_over : Bool
  deriving Repr, DecidableEq

/-- `ScoreManager.__init__` / `ScoreManager.reset` (the two bodies are
identical). -/
def initialScoreState : ScoreState :=
  { score := 0, combo := 0, max_combo := 0, missed_fruits := 0
    game_time := 0, game_over := false }

/-- `ScoreManager.update_score` (score.py lines 25-47).  The Python method
receives the sliced fruit but only uses the constant base score, so the
argument is dropped here. -/
def updateScore (s : ScoreState) : ScoreState :=
  let combo1 := s.combo + 1
  let comboMultiplier : ℚ := 1 + ((combo1 : ℚ) - 1) * COMBO_MULTIPLIER
  let finalScore : ℤ := pyInt (BASE_SCORE_PER_FRUIT * comboMultiplier)
  { s with
    combo := combo1
    score := s.score + finalScore
    max_combo := if combo1 > s.max_combo then combo1 else s.max_combo }

/-- `ScoreManager.reset_combo` (score.py lines 49-53). -/
def resetCombo (s : ScoreState) : ScoreState := { s with combo := 0 }

/-- `ScoreManager.increment_missed_fruits` (score.py lines 55-66). -/
def incrementMissedFruits (s : ScoreState) : ScoreState :=
  let s1 := { s with missed_fruits := s.missed_fruits + 1 }
  let s2 := resetCombo s1
  if s2.missed_fruits ≥ MAX_MISSED_FRUITS then { s2 with game_over := true } else s2

/-- `ScoreManager.update_game_time` (score.py lines 68-79). -/
def updateGameTime (duration : ℚ) (s : ScoreState) (dt : ℚ) : ScoreState :=
  let s1 := { s with game_time := s.game_time + dt }
  if s1.game_time ≥ duration then { s1 with game_over := true } else s1

/-- The four mutating `ScoreManager` operations named by claim C2. -/
inductive ScoreOp where
  | updateGameTime (dt : ℚ)
  | updateScore
  | resetCombo
  | incrementMissedFruits
  deriving Repr

def applyScoreOp (duration : ℚ) (s : ScoreState) : ScoreOp → ScoreState
  | ScoreOp.updateGameTime dt => updateGameTime duration s dt
  | ScoreOp.updateScore => updateScore s
  | ScoreOp.resetCombo => resetCombo s
  | ScoreOp.incrementMissedFruits => incrementMissedFruits s

def runScoreOps (duration : ℚ) (s : ScoreState) (ops : List ScoreOp) : ScoreState :=
  ops.foldl (applyScoreOp duration) s

/-- A time step fed to `update_game_time` advances time forward; the other
operations carry no time step. -/
def scoreOpNonneg : ScoreOp → Prop
  | ScoreOp.updateGameTime dt => 0 ≤ dt
  | _ => True

/-! ### Collision detection (`src/game/collision.py`) -/

structure Pt where
  x : ℚ
  y : ℚ
  deriving Repr, DecidableEq

/-- Fruit kinds (`GameConfig.FRUIT_TYPES` plus the `'bomb'` penalty kind). -/
inductive FruitType where
  | apple
  | banana
  | peach
  | watermelon
  | strawberry
  | bomb
  deriving Repr, DecidableEq

/-- The fields of `Fruit` objects read and written by the collision detector,
physics engine and game engine. -/
structure Fruit where
  x : ℚ
  y : ℚ
  radius : ℚ
  type : FruitType
  velocity_x : ℚ
  velocity_y : ℚ
  angular_velocity : ℚ
  rotation : ℚ
  sliced : Bool
  sliced_time : ℚ
  deriving Repr, DecidableEq

/-- `CollisionDetector.line_circle_collision` (collision.py lines 54-94). -/
def lineCircleCollision (lineStart lineEnd circleCenter : Pt) (radius : ℚ) : Bool :=
  let dx := lineEnd.x - lineStart.x
  let dy := lineEnd.y - lineStart.y
  let lineLengthSq := dx ^ 2 + dy ^ 2
  if lineLengthSq = 0 then
    decide ((lineStart.x - circleCenter.x) ^ 2 + (lineStart.y - circleCenter.y) ^ 2 ≤ radius ^ 2)
  else
    let t := max 0 (min 1 (((circleCenter.x - lineStart.x) * dx +
      (circleCenter.y - lineStart.y) * dy) / lineLengthSq))
    let closestX := lineStart.x + t * dx
    let closestY := lineStart.y + t * dy
    decide ((closestX - circleCenter.x) ^ 2 + (closestY - circleCenter.y) ^ 2 ≤ radius ^ 2)

/-- The segment loop of `CollisionDetector.detect_collision` (collision.py
lines 39-51): some consecutive trajectory segment hits the fruit's circle. -/
def trajectoryHitsFruit (trajectory : List Pt) (fruit : Fruit) : Bool :=
  (trajectory.zip trajectory.tail).any fun seg =>
    lineCircleCollision seg.1 seg.2 ⟨fruit.x, fruit.y⟩ fruit.radius

/-- `CollisionDetector.detect_collision` (collision.py lines 20-52). -/
def detectCollision (gestureTrajectory : List Pt) (fruit : Fruit) : Bool :=
  if fruit.sliced then false
  else if gestureTrajectory.length < 2 then false
  else trajectoryHitsFruit gestureTrajectory fruit

/-- `CollisionDetector.detect_double_gesture_collision` (collision.py lines
122-148). -/
def detectDoubleGestureCollision (indexFingerTrajectory middleFingerTrajectory : List Pt)
    (fruit : Fruit) : Bool :=
  if fruit.sliced then false
  else if indexFingerTrajectory.length < 2 ∨ middleFingerTrajectory.length < 2 then false
  else detectCollision indexFingerTrajectory fruit && detectCollision middleFingerTrajectory fruit

/-- `CollisionDetector.detect_multiple_collisions` (collision.py lines
96-120): the returned list keeps the colliding fruits in input order. -/
def detectMultipleCollisions (gestureTrajectory middleFingerTrajectory : List Pt)
    (fruits : List Fruit) : List Fruit :=
  fruits.filter fun fruit =>
    if fruit.type = FruitType.watermelon then
      detectDoubleGestureCollision gestureTrajectory middleFingerTrajectory fruit
    else
      detectCollision gestureTrajectory fruit

/-! ### Physics and fruit lifecycle (`src/game/physics.py`, `src/game/fruit.py`) -/

/-- `PhysicsEngine.apply_physics` (physics.py lines 20-37): gravity is added
to the vertical velocity first, then the position is integrated with the
updated velocity; sliced fruits are frozen. -/
def applyPhysics (fruit : Fruit) (dt : ℚ) : Fruit :=
  if fruit.sliced then fruit
  else
    let vy1 := fruit.velocity_y + GRAVITY * dt
    { fruit with
      velocity_y := vy1
      x := fruit.x + fruit.velocity_x * dt
      y := fruit.y + vy1 * dt
      rotation := fruit.rotation + fruit.angular_velocity * dt }

/-- `Fruit.is_off_screen` (fruit.py lines 353-362): left, right and bottom
exits only — the top is not out of bounds. -/
def isOffScreen (fruit : Fruit) : Bool :=
  decide (fruit.x < -fruit.radius) ||
  decide (fruit.x > WINDOW_WIDTH + fruit.radius) ||
  decide (fruit.y > WINDOW_HEIGHT + fruit.radius)

/-! ### Playing-state per-tick update (`src/game/engine.py`, `GameEngine.update`)

The tick is driven by oracle inputs for everything the engine reads from
collaborators: the smoothed index-finger trajectory and the middle-finger
trajectory handed to the collision detector, the swipe-gate decision of the
gesture mapper, and the fruits the manager's randomized spawner appends this
tick.  Python objects are modelled as values; the engine never aliases one
fruit object twice in the manager's list. -/

inductive GState where
  | title
  | countdown
  | playing
  | paused
  | gameOver
  deriving Repr, DecidableEq

structure EngineState where
  gameState : GState
  endReason : Option String
  score : ScoreState
  fruits : List Fruit
  deriving Repr, DecidableEq

/-- The engine's handling of one collided fruit (engine.py lines 428-443,
score side): an already-sliced fruit is skipped; slicing a bomb calls
`increment_missed_fruits`, any other kind calls `update_score`. -/
def processSliced (s : ScoreState) (fruit : Fruit) : ScoreState :=
  if fruit.sliced then s
  else if fruit.type = FruitType.bomb then incrementMissedFruits s
  else updateScore s

/-- Marks the collided fruits as sliced (engine.py lines 428-430,
`fruit.slice(current_time)` on each detected fruit). -/
def sliceCollided (fruits : List Fruit) (collided : List Fruit) (now : ℚ) : List Fruit :=
  fruits.map fun f =>
    if f ∈ collided ∧ f.sliced = false then { f with sliced := true, sliced_time := now }
    else f

/-- `FruitManager.update` (fruit.py lines 387-421) with the spawner's random
draw supplied as the `spawned` oracle: append this tick's spawned fruits,
advance every fruit through the physics engine, then drop fruits that have
been sliced for more than 1.0 s. -/
def fruitManagerUpdate (fruits spawned : List Fruit) (dt now : ℚ) : List Fruit :=
  ((fruits ++ spawned).map fun f => applyPhysics f dt).filter fun f =>
    !(f.sliced && decide (now - f.sliced_time > 1))

/-- `GameEngine.update` in the `PLAYING` state (engine.py lines 373-481),
from the swipe check to the game-over check:
1. if the mapper reports a swipe, detect collisions and process each collided
   fruit (slice flag, then bomb penalty or score);
2. update the fruit manager (spawn, physics, deferred removal of sliced);
3. remove unsliced off-screen fruits with no life penalty;
4. `update_game_time(dt)`;
5. if the score manager reports game over, `end_game('time_over')` — the
   reason argument is the constant `'time_over'` whatever the cause. -/
def playingTick (duration : ℚ) (s : EngineState) (dt now : ℚ)
    (idxTraj midTraj : List Pt) (swipe : Bool) (spawned : List Fruit) : EngineState :=
  let collided := if swipe then detectMultipleCollisions idxTraj midTraj s.fruits else []
  let fruits1 := if swipe then sliceCollided s.fruits collided now else s.fruits
  let score1 := collided.foldl processSliced s.score
  let fruits2 := fruitManagerUpdate fruits1 spawned dt now
  let fruits3 := fruits2.filter fun f => !(isOffScreen f && !f.sliced)
  let score2 := updateGameTime duration score1 dt
  if score2.game_over then
    { gameState := GState.gameOver, endReason := some "time_over"
      score := score2, fruits := fruits3 }
  else
    { s with score := score2, fruits := fruits3 }

/-! ### Spawn velocity solver (`src/game/fruit.py`, `Fruit.__init__`)

`Fruit._calculate_trajectory` feeds `math.sqrt` values that are irrational in
general, so the solver is embedded over `ℚ` with the square-root function as
an explicit parameter `sqrtf`; theorems quantify over every `sqrtf`
satisfying (at most) the properties of a real square root that they need.
The fixed numbers below are evaluated from the source: the center-region
midpoint is `(400, 300)`, `center_x` of the window is `400`, the launch speed
is `FRUIT_VELOCITY + 400 = 900`. -/

/-- `Fruit._calculate_horizontal_param_range` (fruit.py lines 73-95). -/
def calcHorizontalParamRange (x : ℚ) : ℚ × ℚ :=
  if x < 400 - 100 then (3/10, 7/10)
  else if x > 400 + 100 then (-7/10, -3/10)
  else (-1/2, 1/2)

/-- The vertical-speed clamping block of `Fruit._calculate_trajectory`
(fruit.py lines 195-212 and, identically with the other bound, lines
214-231): recompute `velocity_y` from the bound `vert`, re-derive
`velocity_x` by the unit-vector constraint, restore its sign for an
all-negative range, clamp it into the range, and re-derive `velocity_y`. -/
def clampBranch (sqrtf : ℚ → ℚ) (minHorizontal maxHorizontal vert currentSpeed : ℚ) :
    ℚ × ℚ :=
  let vyA := -vert / currentSpeed
  let vxA := sqrtf (1 - vyA ^ 2)
  let vxB :=
    if minHorizontal < 0 ∧ maxHorizontal < 0 then -vxA
    else vxA
  let vxC := max minHorizontal (min maxHorizontal vxB)
  (vxC, -sqrtf (1 - vxC ^ 2))

/-- The final re-normalization of `Fruit._calculate_trajectory` (fruit.py
lines 233-237): divide by the vector length when it is positive. -/
def renormalize (sqrtf : ℚ → ℚ) (v : ℚ × ℚ) : ℚ × ℚ :=
  let newLength := sqrtf (v.1 ^ 2 + v.2 ^ 2)
  if 0 < newLength then (v.1 / newLength, v.2 / newLength) else v

/-- `Fruit._calculate_trajectory` (fruit.py lines 97-239).  The uniform
random draws are the inputs `hp` (`horizontal_param`), `ox`, `oy` (the two
`random.uniform(-0.1, 0.1)` offsets).  The symmetry-axis computation of
lines 111-125 writes variables that the function never reads again, so it is
omitted; likewise the normalized aim vector of lines 127-141 is dead in the
returned velocity. -/
def calcTrajectory (sqrtf : ℚ → ℚ) (startX startY : ℚ)
    (horizontalParamRange : ℚ × ℚ) (hp ox oy : ℚ) : ℚ × ℚ :=
  let minHorizontal := horizontalParamRange.1
  let maxHorizontal := horizontalParamRange.2
  let velocityX0 := hp
  let velocityY0 := -sqrtf (1 - velocityX0 ^ 2)
  let velocityX1 := velocityX0 + ox
  let velocityY1 := velocityY0 + oy
  let minRequiredHeight := max (400 - startY) 100
  let maxRequiredHeight := max (480 - startY) 100
  let minVerticalVelocity := sqrtf (2 * GRAVITY * minRequiredHeight)
  let maxVerticalVelocity := sqrtf (2 * GRAVITY * maxRequiredHeight)
  let currentSpeed := FRUIT_VELOCITY + 400
  let currentVerticalVelocity := velocityY1 * currentSpeed
  let clamped :=
    if |currentVerticalVelocity| > maxVerticalVelocity then
      clampBranch sqrtf minHorizontal maxHorizontal maxVerticalVelocity currentSpeed
    else if |currentVerticalVelocity| < minVerticalVelocity then
      clampBranch sqrtf minHorizontal maxHorizontal minVerticalVelocity currentSpeed
    else (velocityX1, velocityY1)
  renormalize sqrtf clamped

/-- The two arguments passed to `math.sqrt` inside one clamping block, in
evaluation order (same local values as `clampBranch`). -/
def clampBranchSqrtArgs (sqrtf : ℚ → ℚ)
    (minHorizontal maxHorizontal vert currentSpeed : ℚ) : List ℚ :=
  let vyA := -vert / currentSpeed
  let vxA := sqrtf (1 - vyA ^ 2)
  let vxB :=
    if minHorizontal < 0 ∧ maxHorizontal < 0 then -vxA
    else vxA
  let vxC := max minHorizontal (min maxHorizontal vxB)
  [1 - vyA ^ 2, 1 - vxC ^ 2]

/-- The arguments passed to `math.sqrt` by `Fruit._calculate_trajectory`, in
evaluation order along the executed path (same branch structure and local
values as `calcTrajectory`; the first entry is the aim-vector length of
line 132, the only square root of the dead code). -/
def calcTrajectorySqrtArgs (sqrtf : ℚ → ℚ) (startX startY centerX centerY : ℚ)
    (horizontalParamRange : ℚ × ℚ) (hp ox oy : ℚ) : List ℚ :=
  let minHorizontal := horizontalParamRange.1
  let maxHorizontal := horizontalParamRange.2
  let dx := centerX - startX
  let dy := centerY - startY
  let velocityX0 := hp
  let velocityY0 := -sqrtf (1 - velocityX0 ^ 2)
  let velocityY1 := velocityY0 + oy
  let minRequiredHeight := max (400 - startY) 100
  let maxRequiredHeight := max (480 - startY) 100
  let minVerticalVelocity := sqrtf (2 * GRAVITY * minRequiredHeight)
  let maxVerticalVelocity := sqrtf (2 * GRAVITY * maxRequiredHeight)
  let currentSpeed := FRUIT_VELOCITY + 400
  let currentVerticalVelocity := velocityY1 * currentSpeed
  let velocityX1 := velocityX0 + ox
  let head := [dx ^ 2 + dy ^ 2, 1 - velocityX0 ^ 2,
    2 * GRAVITY * minRequiredHeight, 2 * GRAVITY * maxRequiredHeight]
  let branchAndClamped :=
    if |currentVerticalVelocity| > maxVerticalVelocity then
      (clampBranchSqrtArgs sqrtf minHorizontal maxHorizontal maxVerticalVelocity
        currentSpeed,
       clampBranch sqrtf minHorizontal maxHorizontal maxVerticalVelocity currentSpeed)
    else if |currentVerticalVelocity| < minVerticalVelocity then
      (clampBranchSqrtArgs sqrtf minHorizontal maxHorizontal minVerticalVelocity
        currentSpeed,
       clampBranch sqrtf minHorizontal maxHorizontal minVerticalVelocity currentSpeed)
    else ([], (velocityX1, velocityY1))
  head ++ branchAndClamped.1 ++
    [branchAndClamped.2.1 ^ 2 + branchAndClamped.2.2 ^ 2]

/-! ### Gesture tracker (`src/gesture/tracker.py`)

The tracker computes two square roots: the distance `sqrt(dx**2+dy**2)` used
for the speed estimate, and `squared_distance**0.5` whose only use is the
integer step count `int(distance / (min_distance * 2))`.  Both are modelled
exactly over `ℚ`:
  * `floorSqrtQ q` is `⌊√q⌋` for a nonnegative rational `q` (exact, because
    `⌊√(n/d)⌋ = ⌊⌊√(n·d)⌋ / d⌋`), so the step count
    `int(√sq / (2·min_distance))` is computed as `floorSqrtQ (sq/(2·min_distance)²)`;
  * `ratSqrtQ q` is `⌊√(n·d)⌋ / d`, which equals `√q` exactly whenever `√q`
    is rational (a square root that is irrational cannot be represented in
    `ℚ`; every concrete trace evaluated in this file only takes square roots
    of perfect rational squares, where `ratSqrtQ` agrees with the source). -/

/-- Fueled integer square root (`⌊√n⌋`), written so the kernel can evaluate
it on concrete inputs; `isqrt_eq_sqrt` below shows it agrees with
`Nat.sqrt`. -/
def isqrtFuel : ℕ → ℕ → ℕ
  | 0, _ => 0
  | f + 1, n =>
    if n = 0 then 0
    else
      let r := isqrtFuel f (n / 4) * 2
      if (r + 1) ^ 2 ≤ n then r + 1 else r

def isqrt (n : ℕ) : ℕ := isqrtFuel n n

theorem isqrtFuel_spec (f : ℕ) : ∀ n : ℕ, n ≤ f →
    (isqrtFuel f n) ^ 2 ≤ n ∧ n < (isqrtFuel f n + 1) ^ 2 := by
  induction f with
  | zero =>
    intro n hn
    have h0 : n = 0 := by omega
    subst h0
    simp [isqrtFuel]
  | succ f ih =>
    intro n hn
    by_cases h0 : n = 0
    · subst h0; simp [isqrtFuel]
    · have hpos : 1 ≤ n := Nat.one_le_iff_ne_zero.mpr h0
      have hrec : n / 4 ≤ f := by
        have h4 : n / 4 < n := Nat.div_lt_self hpos (by norm_num)
        omega
      obtain ⟨hlo, hhi⟩ := ih (n / 4) hrec
      have hshape : isqrtFuel (f + 1) n =
          if (isqrtFuel f (n / 4) * 2 + 1) ^ 2 ≤ n then isqrtFuel f (n / 4) * 2 + 1
          else isqrtFuel f (n / 4) * 2 := by
        rw [isqrtFuel, if_neg h0]
      have e1 : (isqrtFuel f (n / 4) * 2) ^ 2 = (isqrtFuel f (n / 4)) ^ 2 * 4 := by ring
      have e2 : (isqrtFuel f (n / 4) * 2 + 2) ^ 2 = (isqrtFuel f (n / 4) + 1) ^ 2 * 4 := by
        ring
      have h4n : n / 4 * 4 ≤ n := Nat.div_mul_le_self n 4
      have h4n2 : n < n / 4 * 4 + 4 := by omega
      have hr2 : (isqrtFuel f (n / 4) * 2) ^ 2 ≤ n := by
        have : (isqrtFuel f (n / 4)) ^ 2 * 4 ≤ n / 4 * 4 :=
          Nat.mul_le_mul_right 4 hlo
        omega
      have hr4 : n < (isqrtFuel f (n / 4) * 2 + 2) ^ 2 := by
        have : (n / 4 + 1) * 4 ≤ (isqrtFuel f (n / 4) + 1) ^ 2 * 4 :=
          Nat.mul_le_mul_right 4 hhi
        omega
      rw [hshape]
      by_cases hc : (isqrtFuel f (n / 4) * 2 + 1) ^ 2 ≤ n
      · rw [if_pos hc]
        have e3 : (isqrtFuel f (n / 4) * 2 + 1 + 1) ^ 2 =
            (isqrtFuel f (n / 4) * 2 + 2) ^ 2 := by ring
        exact ⟨hc, by omega⟩
      · rw [if_neg hc]
        exact ⟨hr2, by omega⟩

theorem isqrt_eq_sqrt (n : ℕ) : isqrt n = Nat.sqrt n := by
  obtain ⟨hlo, hhi⟩ := isqrtFuel_spec n n le_rfl
  have h1 : isqrt n ≤ Nat.sqrt n := by
    rw [Nat.le_sqrt]
    calc isqrt n * isqrt n = (isqrt n) ^ 2 := by ring
      _ ≤ n := hlo
  have h2 : Nat.sqrt n < isqrt n + 1 := by
    rw [Nat.sqrt_lt]
    calc n < (isqrt n + 1) ^ 2 := hhi
      _ = (isqrt n + 1) * (isqrt n + 1) := by ring
  omega

def floorSqrtQ (q : ℚ) : ℕ := isqrt (q.num.toNat * q.den) / q.den

def ratSqrtQ (q : ℚ) : ℚ := (isqrt (q.num.toNat * q.den) : ℚ) / (q.den : ℚ)

/-- A hand landmark supplied by the perception collaborator (camera pixel
coordinates). -/
structure Landmark where
  x : ℚ
  y : ℚ
  deriving Repr, DecidableEq

/-- A trajectory point (`{'x','y','timestamp','alpha','speed'}` dict in the
source). -/
structure TrackPoint where
  x : ℚ
  y : ℚ
  timestamp : ℚ
  alpha : ℚ
  speed : ℚ
  deriving Repr, DecidableEq

/-- The `GestureTracker` fields touched by `update_landmarks`.
`trajectory` is the index-finger channel, `middleFingerTrajectory` the
middle-finger channel. -/
structure TrackerState where
  trajectory : List TrackPoint
  middleFingerTrajectory : List TrackPoint
  positionHistory : List Pt
  previousLandmarks : Option (List Landmark)
  currentLandmarks : Option (List Landmark)
  maxTrajectoryLength : ℕ
  deriving Repr, DecidableEq

/-- `GestureTracker()` as built by the factory (default arguments). -/
def initTracker : TrackerState :=
  { trajectory := [], middleFingerTrajectory := [], positionHistory := []
    previousLandmarks := none, currentLandmarks := none, maxTrajectoryLength := 50 }

/-- Camera-to-game scale factors (tracker.py lines 68-75):
`scale_x = game_width / camera_height`, `scale_y = game_height / camera_width`. -/
def scaleX : ℚ := WINDOW_WIDTH / 240

def scaleY : ℚ := WINDOW_HEIGHT / 320

/-- The per-channel speed estimate (tracker.py lines 87-95 and 107-115):
distance from the channel's last point divided by the timestamp difference,
0 for an empty channel or a nonpositive time difference. -/
def channelSpeed (traj : List TrackPoint) (px py now : ℚ) : ℚ :=
  match traj.getLast? with
  | none => 0
  | some lastPoint =>
    let dx := px - lastPoint.x
    let dy := py - lastPoint.y
    let distance := ratSqrtQ (dx ^ 2 + dy ^ 2)
    let timeDiff := now - lastPoint.timestamp
    if 0 < timeDiff then distance / timeDiff else 0

/-- The distance-gated insertion of one candidate point into a channel
(tracker.py lines 126-172 for the middle finger, 186-232 for the index
finger; the two blocks are textually identical).  Returns the list of points
appended to the channel: nothing when the candidate is below the minimum
distance, interpolated gap-filling points plus the candidate when it is more
than `3 × min_distance` away, and just the candidate otherwise.  The step
count `int(distance / (min_distance*2))` is computed as
`floorSqrtQ (squaredDistance / (minDistance*2)²)`. -/
def trajNewPoints (traj : List TrackPoint) (cand : TrackPoint) : List TrackPoint :=
  match traj.getLast? with
  | none => [cand]
  | some lastPoint =>
    let dx := cand.x - lastPoint.x
    let dy := cand.y - lastPoint.y
    let squaredDistance := dx ^ 2 + dy ^ 2
    let baseMinDistance : ℚ := 3
    let speedFactor := min (cand.speed / 200) 2
    let minDistance := baseMinDistance + speedFactor * 2
    let minSquaredDistance := minDistance ^ 2
    if squaredDistance > minSquaredDistance then
      let maxSquaredDistance := (minDistance * 3) ^ 2
      if squaredDistance > maxSquaredDistance then
        let steps := max 2 (floorSqrtQ (squaredDistance / (minDistance * 2) ^ 2))
        ((List.range (steps - 1)).map fun j =>
          let t : ℚ := (j + 1 : ℕ) / (steps : ℚ)
          { x := lastPoint.x + (cand.x - lastPoint.x) * t
            y := lastPoint.y + (cand.y - lastPoint.y) * t
            timestamp := lastPoint.timestamp + (cand.timestamp - lastPoint.timestamp) * t
            alpha := 1 - t * (3/10)
            speed := cand.speed * (1 - t * (1/5)) }) ++ [cand]
      else [cand]
    else []

/-- The length cap applied after each insertion (tracker.py lines 174-176 and
234-236): if the channel exceeds `max_trajectory_length`, pop one point from
the front. -/
def capTraj (maxLen : ℕ) (l : List TrackPoint) : List TrackPoint :=
  if maxLen < l.length then l.drop 1 else l

/-- One channel's full update for an accepted candidate point: distance-gated
insertion followed by the single-pop length cap. -/
def channelUpdate (maxLen : ℕ) (traj : List TrackPoint) (cand : TrackPoint) :
    List TrackPoint :=
  capTraj maxLen (traj ++ trajNewPoints traj cand)

/-- `GestureTracker.update_landmarks` (tracker.py lines 41-241).  `now` is the
`time.time()` timestamp taken during the call.  An empty landmark list takes
the `else` branch (lines 237-241): it clears `current_landmarks`, the
index-finger `trajectory` and `position_history` — and nothing else. -/
def updateLandmarks (s : TrackerState) (landmarks : List Landmark) (now : ℚ) :
    TrackerState :=
  match landmarks with
  | [] =>
    { s with currentLandmarks := none, trajectory := [], positionHistory := [] }
  | _ =>
    let s1 := { s with previousLandmarks := s.currentLandmarks
                       currentLandmarks := some landmarks }
    if h8 : 8 < landmarks.length then
      let fingertip := landmarks.get ⟨8, h8⟩
      let adjustedX := fingertip.y * scaleX
      let adjustedY := fingertip.x * scaleY
      let speed := channelSpeed s.trajectory adjustedX adjustedY now
      let middle1 :=
        if h12 : 12 < landmarks.length then
          let middleFingertip := landmarks.get ⟨12, h12⟩
          let middleAdjustedX := middleFingertip.y * scaleX
          let middleAdjustedY := middleFingertip.x * scaleY
          let middleSpeed :=
            channelSpeed s.middleFingerTrajectory middleAdjustedX middleAdjustedY now
          let middleCand : TrackPoint :=
            { x := middleAdjustedX, y := middleAdjustedY, timestamp := now
              alpha := 1, speed := middleSpeed }
          channelUpdate s.maxTrajectoryLength s.middleFingerTrajectory middleCand
        else s.middleFingerTrajectory
      let cand : TrackPoint :=
        { x := adjustedX, y := adjustedY, timestamp := now, alpha := 1, speed := speed }
      let trajectory1 := channelUpdate s.maxTrajectoryLength s.trajectory cand
      { s1 with trajectory := trajectory1, middleFingerTrajectory := middle1 }
    else s1

/-! ## Theorems for the claims -/

/-! ### C2 — the game-over invariant of the score manager -/

/-- The claimed invariant: `game_over` holds exactly when the accumulated
game time has reached the configured duration or the missed count has
reached `MAX_MISSED_FRUITS`. -/
def scoreInv (duration : ℚ) (s : ScoreState) : Prop :=
  s.game_over = true ↔
    duration ≤ s.game_time ∨ MAX_MISSED_FRUITS ≤ s.missed_fruits

theorem scoreInv_step (duration : ℚ) (s : ScoreState) (op : ScoreOp)
    (hInv : scoreInv duration s) (hop : scoreOpNonneg op) :
    scoreInv duration (applyScoreOp duration s op) := by
  cases op with
  | updateGameTime dt =>
    simp only [scoreOpNonneg] at hop
    simp only [applyScoreOp, updateGameTime, scoreInv] at hInv ⊢
    split
    next h => simpa using Or.inl (by simpa using h)
    next h =>
      simp only at h ⊢
      have hng : ¬ duration ≤ s.game_time := fun hle => h (by linarith)
      rw [hInv]
      constructor
      · rintro (h1 | h2)
        · exact absurd h1 hng
        · exact Or.inr h2
      · rintro (h1 | h2)
        · exact absurd h1 h
        · exact Or.inr h2
  | updateScore =>
    simpa only [applyScoreOp, updateScore, scoreInv] using hInv
  | resetCombo =>
    simpa only [applyScoreOp, resetCombo, scoreInv] using hInv
  | incrementMissedFruits =>
    simp only [applyScoreOp, incrementMissedFruits, resetCombo, scoreInv] at hInv ⊢
    split
    next h => simpa using Or.inr (by simpa using h)
    next h =>
      simp only at h ⊢
      rw [hInv]
      constructor
      · rintro (h1 | h2)
        · exact Or.inl h1
        · exact Or.inr (by omega)
      · rintro (h1 | h2)
        · exact Or.inl h1
        · exact absurd h2 (by omega)

theorem runScoreOps_inv (duration : ℚ) :
    ∀ (ops : List ScoreOp) (s : ScoreState), scoreInv duration s →
      (∀ op ∈ ops, scoreOpNonneg op) →
      scoreInv duration (runScoreOps duration s ops) := by
  intro ops
  induction ops with
  | nil => intro s hInv _; exact hInv
  | cons op rest ih =>
    intro s hInv hops
    have h1 : scoreInv duration (applyScoreOp duration s op) :=
      scoreInv_step duration s op hInv (hops op (List.mem_cons_self op rest))
    have h2 : ∀ o ∈ rest, scoreOpNonneg o := fun o ho =>
      hops o (List.mem_cons_of_mem op ho)
    simpa only [runScoreOps, List.foldl_cons] using ih (applyScoreOp duration s op) h1 h2

/-- Claim C2: after any sequence of `update_game_time`, `update_score`,
`reset_combo` and `increment_missed_fruits` calls on a fresh (or reset)
`ScoreManager`, `game_over` holds iff the accumulated `game_time` has
reached the configured duration or `missed_fruits` has reached the
maximum-missed threshold (5).  Time steps are the seconds handed to
`update_game_time`, hence nonnegative. -/
theorem claim_C2_game_over_iff (duration : ℚ) (hdur : 0 < duration)
    (ops : List ScoreOp) (hops : ∀ op ∈ ops, scoreOpNonneg op) :
    (runScoreOps duration initialScoreState ops).game_over = true ↔
      duration ≤ (runScoreOps duration initialScoreState ops).game_time ∨
      MAX_MISSED_FRUITS ≤ (runScoreOps duration initialScoreState ops).missed_fruits := by
  have hInit : scoreInv duration initialScoreState := by
    simp only [scoreInv, initialScoreState, MAX_MISSED_FRUITS]
    constructor
    · intro h; cases h
    · rintro (h | h)
      · exact absurd h (by linarith)
      · exact absurd h (by omega)
  exact runScoreOps_inv duration ops initialScoreState hInit hops

/-- Witness for C2: five bomb penalties from a fresh manager with a
60-second duration end the game, and the invariant instance evaluates. -/
theorem claim_C2_game_over_iff_witness :
    (runScoreOps 60 initialScoreState
        (List.replicate 5 ScoreOp.incrementMissedFruits)).game_over = true := by
  have h := claim_C2_game_over_iff 60 (by norm_num)
    (List.replicate 5 ScoreOp.incrementMissedFruits)
    (by
      intro op hop
      rw [List.eq_of_mem_replicate hop]
      trivial)
  exact h.mpr (Or.inr (by decide))

/-! ### C4 — score and combo arithmetic -/

theorem replicate_updateScore_state (duration : ℚ) (N : ℕ) :
    (runScoreOps duration initialScoreState
        (List.replicate N ScoreOp.updateScore)).combo = N ∧
    (runScoreOps duration initialScoreState
        (List.replicate N ScoreOp.updateScore)).score =
      ∑ i in Finset.range N,
        pyInt (BASE_SCORE_PER_FRUIT * (1 + (i : ℚ) * COMBO_MULTIPLIER)) := by
  induction N with
  | zero => simp [runScoreOps, initialScoreState]
  | succ N ih =>
    obtain ⟨hcombo, hscore⟩ := ih
    have hsplit : runScoreOps duration initialScoreState
        (List.replicate (N + 1) ScoreOp.updateScore) =
        updateScore (runScoreOps duration initialScoreState
          (List.replicate N ScoreOp.updateScore)) := by
      rw [List.replicate_succ']
      simp [runScoreOps, List.foldl_append, applyScoreOp]
    rw [hsplit]
    constructor
    · simp only [updateScore]
      omega
    · simp only [updateScore, Finset.sum_range_succ, hscore, hcombo]
      congr 1
      congr 2
      push_cast
      ring

/-- Claim C4: starting from a reset `ScoreManager`, after `N` consecutive
`update_score` calls with no intervening miss, `combo = N` and
`score = Σ_{i=1..N} int(BASE · (1 + (i−1) · MULT))` with `BASE = 10`,
`MULT = 1.5` and the code's per-slice `int()` truncation; one subsequent
`increment_missed_fruits` call zeroes `combo` and leaves `score` and
`max_combo` unchanged. -/
theorem claim_C4_combo_score (duration : ℚ) (N : ℕ) :
    (runScoreOps duration initialScoreState
        (List.replicate N ScoreOp.updateScore)).combo = N ∧
    (runScoreOps duration initialScoreState
        (List.replicate N ScoreOp.updateScore)).score =
      ∑ i in Finset.range N,
        pyInt (BASE_SCORE_PER_FRUIT * (1 + (i : ℚ) * COMBO_MULTIPLIER)) ∧
    (incrementMissedFruits (runScoreOps duration initialScoreState
        (List.replicate N ScoreOp.updateScore))).combo = 0 ∧
    (incrementMissedFruits (runScoreOps duration initialScoreState
        (List.replicate N ScoreOp.updateScore))).score =
      (runScoreOps duration initialScoreState
        (List.replicate N ScoreOp.updateScore)).score ∧
    (incrementMissedFruits (runScoreOps duration initialScoreState
        (List.replicate N ScoreOp.updateScore))).max_combo =
      (runScoreOps duration initialScoreState
        (List.replicate N ScoreOp.updateScore)).max_combo := by
  obtain ⟨hcombo, hscore⟩ := replicate_updateScore_state duration N
  refine ⟨hcombo, hscore, ?_, ?_, ?_⟩ <;>
    · simp only [incrementMissedFruits, resetCombo]
      split <;> simp

/-! ### C5 — dual-channel watermelon collision rule -/

/-- Claim C5: an unsliced watermelon is reported by
`detect_multiple_collisions` exactly when both the index-finger and the
middle-finger trajectories have at least two points and each independently
intersects the fruit's circle; and the dual test
`detect_double_gesture_collision` returns false whenever the target is
sliced, either channel is shorter than two points, or either channel fails
to intersect. -/
theorem claim_C5_watermelon_dual (idx mid : List Pt) (fruits : List Fruit) (f : Fruit)
    (hmem : f ∈ fruits) (hwm : f.type = FruitType.watermelon) (hns : f.sliced = false) :
    (f ∈ detectMultipleCollisions idx mid fruits ↔
      (2 ≤ idx.length ∧ 2 ≤ mid.length ∧
       trajectoryHitsFruit idx f = true ∧ trajectoryHitsFruit mid f = true)) ∧
    (∀ (idx2 mid2 : List Pt) (g : Fruit),
      g.sliced = true ∨ idx2.length < 2 ∨ mid2.length < 2 ∨
        trajectoryHitsFruit idx2 g = false ∨ trajectoryHitsFruit mid2 g = false →
      detectDoubleGestureCollision idx2 mid2 g = false) := by
  have key : ∀ (t1 t2 : List Pt) (g : Fruit), g.sliced = false →
      (detectDoubleGestureCollision t1 t2 g = true ↔
        (2 ≤ t1.length ∧ 2 ≤ t2.length ∧
         trajectoryHitsFruit t1 g = true ∧ trajectoryHitsFruit t2 g = true)) := by
    intro t1 t2 g hg
    by_cases hl : t1.length < 2 ∨ t2.length < 2
    · simp only [detectDoubleGestureCollision, detectCollision, hg, hl]
      simp only [Bool.false_eq_true, if_false, false_iff, if_true]
      rintro ⟨h1, h2, -, -⟩
      rcases hl with h | h <;> omega
    · push_neg at hl
      obtain ⟨hl1, hl2⟩ := hl
      simp only [detectDoubleGestureCollision, detectCollision, hg]
      simp only [Bool.false_eq_true, if_false,
        if_neg (show ¬(t1.length < 2 ∨ t2.length < 2) by omega),
        if_neg (show ¬(t1.length < 2) by omega),
        if_neg (show ¬(t2.length < 2) by omega), Bool.and_eq_true]
      constructor
      · rintro ⟨h1, h2⟩; exact ⟨by omega, by omega, h1, h2⟩
      · rintro ⟨-, -, h1, h2⟩; exact ⟨h1, h2⟩
  constructor
  · rw [detectMultipleCollisions, List.mem_filter]
    simp only [hmem, true_and, hwm]
    rw [if_pos trivial]
    exact key idx mid f hns
  · intro idx2 mid2 g hdisj
    by_cases hs : g.sliced = true
    · simp [detectDoubleGestureCollision, hs]
    · have hg : g.sliced = false := by
        cases h : g.sliced
        · rfl
        · exact absurd h hs
      rcases hdisj with h | h | h | h | h
      · exact absurd h hs
      · simp [detectDoubleGestureCollision, hg, h]
      · simp [detectDoubleGestureCollision, hg, h]
      · cases hcontra : detectDoubleGestureCollision idx2 mid2 g
        · rfl
        · have := ((key idx2 mid2 g hg).mp hcontra).2.2.1
          rw [h] at this
          exact absurd this (by simp)
      · cases hcontra : detectDoubleGestureCollision idx2 mid2 g
        · rfl
        · have := ((key idx2 mid2 g hg).mp hcontra).2.2.2
          rw [h] at this
          exact absurd this (by simp)

/-- The concrete objects of C5's witness: a horizontal two-point stroke on
each channel through an unsliced watermelon of radius 40 centred at
`(50, 0)`. -/
def c5Watermelon : Fruit :=
  { x := 50, y := 0, radius := 40, type := FruitType.watermelon
    velocity_x := 0, velocity_y := 0, angular_velocity := 0, rotation := 0
    sliced := false, sliced_time := 0 }

def c5Stroke : List Pt := [⟨0, 0⟩, ⟨100, 0⟩]

/-- Witness for C5: with both channels stroking through the watermelon, the
dual rule reports the hit. -/
theorem claim_C5_watermelon_dual_witness :
    c5Watermelon ∈ detectMultipleCollisions c5Stroke c5Stroke [c5Watermelon] :=
  ((claim_C5_watermelon_dual c5Stroke c5Stroke [c5Watermelon] c5Watermelon
      (by decide) rfl rfl).1).mpr (by decide)

/-! ### C1 — empty landmark input does NOT clear both channels

The `else` branch of `update_landmarks` (tracker.py lines 237-241) clears
`current_landmarks`, `trajectory` and `position_history`, but never touches
`middle_finger_trajectory`, so the claim fails: the middle-finger channel
survives a detection loss. -/

def c1Landmarks : List Landmark := List.replicate 13 ⟨0, 0⟩

/-- Counterexample to C1 as stated: one update with 13 landmarks populates
both channels; a following empty update leaves the middle-finger channel
non-empty. -/
theorem claim_C1_counterexample :
    (updateLandmarks initTracker c1Landmarks 0).trajectory ≠ [] ∧
    (updateLandmarks initTracker c1Landmarks 0).middleFingerTrajectory ≠ [] ∧
    (updateLandmarks (updateLandmarks initTracker c1Landmarks 0) [] 1
      ).middleFingerTrajectory ≠ [] := by
  decide

/-- Claim C1 (amended): for every tracker state, an empty landmark update
empties the index-finger trajectory (and the position history) but leaves
the middle-finger trajectory exactly as it was. -/
theorem claim_C1_amended (s : TrackerState) (now : ℚ) :
    (updateLandmarks s [] now).trajectory = [] ∧
    (updateLandmarks s [] now).positionHistory = [] ∧
    (updateLandmarks s [] now).middleFingerTrajectory = s.middleFingerTrajectory :=
  ⟨rfl, rfl, rfl⟩

/-! ### C6 — the length cap evicts only one point per call

`update_landmarks` pops at most one point from the front of a channel per
call (tracker.py lines 174-176, 234-236), while a gap-filling insertion can
append many points in the same call, so the 50-point bound fails in
general. -/

def c6Lm1 : List Landmark := List.replicate 9 ⟨0, 0⟩

def c6Lm2 : List Landmark := List.replicate 9 ⟨0, 240⟩

/-- Counterexample to C6 as stated: from a fresh tracker, one ordinary
update followed by one update whose fingertip jumped 800 game-space pixels
in one second leaves the index channel at 57 points — above the 50-point
maximum — because the gap-filling insertion added 57 points and the cap
evicted only one. -/
theorem claim_C6_counterexample :
    (updateLandmarks initTracker c6Lm1 0).trajectory.length ≤ 50 ∧
    50 < (updateLandmarks (updateLandmarks initTracker c6Lm1 0) c6Lm2 1
      ).trajectory.length := by
  decide

/-- Claim C6 (amended): after any `update_landmarks` call in which at most
one point is appended to a channel (the non-gap-filling case), that
channel's length stays within the fixed maximum, the oldest point being
evicted first when the cap is exceeded; a gap-filling call evicts only one
oldest point and can exceed the maximum. -/
theorem claim_C6_amended (maxLen : ℕ) (traj : List TrackPoint) (cand : TrackPoint)
    (hlen : traj.length ≤ maxLen) (hone : (trajNewPoints traj cand).length ≤ 1) :
    (channelUpdate maxLen traj cand).length ≤ maxLen := by
  rw [channelUpdate, capTraj]
  split
  next h =>
    rw [List.length_drop, List.length_append]
    rw [List.length_append] at h
    omega
  next h =>
    rw [List.length_append]
    rw [List.length_append] at h
    omega

def c6WitTraj : List TrackPoint := List.replicate 50 ⟨0, 0, 0, 1, 0⟩

/-- Witness for the amended C6: a full 50-point channel given a candidate
within the minimum distance (nothing appended) stays at 50 points. -/
theorem claim_C6_amended_witness :
    (channelUpdate 50 c6WitTraj ⟨1, 0, 0, 1, 0⟩).length ≤ 50 :=
  claim_C6_amended 50 c6WitTraj ⟨1, 0, 0, 1, 0⟩ (by decide) (by decide)

/-! ### Engine-tick projection lemmas -/

theorem updateGameTime_proj (d : ℚ) (sc : ScoreState) (dt : ℚ) :
    (updateGameTime d sc dt).score = sc.score ∧
    (updateGameTime d sc dt).combo = sc.combo ∧
    (updateGameTime d sc dt).max_combo = sc.max_combo ∧
    (updateGameTime d sc dt).missed_fruits = sc.missed_fruits := by
  rw [updateGameTime]
  split <;> exact ⟨rfl, rfl, rfl, rfl⟩

theorem incrementMissed_proj (sc : ScoreState) :
    (incrementMissedFruits sc).score = sc.score ∧
    (incrementMissedFruits sc).max_combo = sc.max_combo ∧
    (incrementMissedFruits sc).missed_fruits = sc.missed_fruits + 1 ∧
    (incrementMissedFruits sc).combo = 0 := by
  rw [incrementMissedFruits]
  split <;> exact ⟨rfl, rfl, rfl, rfl⟩

theorem incrementMissed_gameOver (sc : ScoreState) :
    ((incrementMissedFruits sc).game_over = true ↔
      (sc.game_over = true ∨ MAX_MISSED_FRUITS ≤ sc.missed_fruits + 1)) := by
  rw [incrementMissedFruits]
  split
  next h =>
    have h1 : MAX_MISSED_FRUITS ≤ sc.missed_fruits + 1 := h
    simp only [true_iff]
    exact Or.inr h1
  next h =>
    have h1 : ¬ MAX_MISSED_FRUITS ≤ sc.missed_fruits + 1 := h
    simp only [resetCombo]
    tauto

theorem playingTick_score (d : ℚ) (s : EngineState) (dt now : ℚ)
    (idx mid : List Pt) (swipe : Bool) (spawned : List Fruit) :
    (playingTick d s dt now idx mid swipe spawned).score =
      updateGameTime d
        ((if swipe then detectMultipleCollisions idx mid s.fruits else []).foldl
          processSliced s.score) dt := by
  simp only [playingTick]
  split <;> split <;> rfl

theorem playingTick_fruits (d : ℚ) (s : EngineState) (dt now : ℚ)
    (idx mid : List Pt) (swipe : Bool) (spawned : List Fruit) :
    (playingTick d s dt now idx mid swipe spawned).fruits =
      (fruitManagerUpdate
        (if swipe then
          sliceCollided s.fruits
            (if swipe then detectMultipleCollisions idx mid s.fruits else []) now
         else s.fruits) spawned dt now).filter
        (fun f => !(isOffScreen f && !f.sliced)) := by
  simp only [playingTick]
  split <;> split <;> rfl

/-- The predicate under which the engine's collided-fruit handler increments
`missed_fruits`: an unsliced bomb. -/
def isBombPenalty (f : Fruit) : Bool := !f.sliced && decide (f.type = FruitType.bomb)

theorem foldl_processSliced_missed (l : List Fruit) : ∀ sc : ScoreState,
    (l.foldl processSliced sc).missed_fruits =
      sc.missed_fruits + (l.countP isBombPenalty : ℤ) := by
  induction l with
  | nil => intro sc; simp
  | cons f t ih =>
    intro sc
    rw [List.foldl_cons, ih, List.countP_cons]
    have hstep : (processSliced sc f).missed_fruits =
        sc.missed_fruits + (if isBombPenalty f = true then 1 else 0) := by
      rw [processSliced, isBombPenalty]
      by_cases hs : f.sliced = true
      · rw [if_pos hs]
        simp [hs]
      · have hs' : f.sliced = false := by
          cases h : f.sliced
          · rfl
          · exact absurd h hs
        rw [if_neg hs]
        by_cases ht : f.type = FruitType.bomb
        · rw [if_pos ht, (incrementMissed_proj sc).2.2.1]
          simp [hs', ht]
        · rw [if_neg ht]
          simp [updateScore, hs', ht]
    rw [hstep]
    push_cast
    split <;> omega

/-! ### C9 — off-screen fruits are removed without penalty -/

/-- Claim C9: in the Playing-state tick, (1) no unsliced off-screen fruit
survives in the live list, (2) `missed_fruits` changes by exactly the number
of unsliced bombs among the collided fruits — off-screen removal carries no
miss penalty, and the only increment source is slicing a bomb — and (3) a
tick with no swipe leaves the whole score state equal to
`update_game_time(dt)` of the previous one. -/
theorem claim_C9_offscreen_no_penalty (d : ℚ) (s : EngineState) (dt now : ℚ)
    (idx mid : List Pt) (swipe : Bool) (spawned : List Fruit) :
    (∀ f ∈ (playingTick d s dt now idx mid swipe spawned).fruits,
      f.sliced = true ∨ isOffScreen f = false) ∧
    ((playingTick d s dt now idx mid swipe spawned).score.missed_fruits =
      s.score.missed_fruits +
        ((if swipe then detectMultipleCollisions idx mid s.fruits else []).countP
          isBombPenalty : ℤ)) ∧
    ((playingTick d s dt now idx mid false spawned).score =
      updateGameTime d s.score dt) := by
  refine ⟨?_, ?_, ?_⟩
  · intro f hf
    rw [playingTick_fruits] at hf
    have hpred := (List.mem_filter.mp hf).2
    cases hsl : f.sliced
    · right
      rw [hsl] at hpred
      simpa using hpred
    · left; rfl
  · rw [playingTick_score, (updateGameTime_proj d _ dt).2.2.2,
      foldl_processSliced_missed]
  · rw [playingTick_score]
    simp

/-- Concrete tick for the C9 witness: a single unsliced on-screen apple,
no swipe, zero time step. -/
def c9Apple : Fruit :=
  { x := 400, y := 300, radius := 40, type := FruitType.apple
    velocity_x := 0, velocity_y := 0, angular_velocity := 0, rotation := 0
    sliced := false, sliced_time := 0 }

def c9State : EngineState :=
  { gameState := GState.playing, endReason := none
    score := initialScoreState, fruits := [c9Apple] }

/-- Witness for C9: applied to the concrete no-swipe tick, the surviving
apple is on-screen, and the claim's conclusions evaluate there. -/
theorem claim_C9_offscreen_no_penalty_witness :
    (applyPhysics c9Apple 0) ∈ (playingTick 60 c9State 0 0 [] [] false []).fruits ∧
    ((applyPhysics c9Apple 0).sliced = true ∨ isOffScreen (applyPhysics c9Apple 0) = false) ∧
    (playingTick 60 c9State 0 0 [] [] false []).score = updateGameTime 60 initialScoreState 0 :=
  ⟨by decide,
   (claim_C9_offscreen_no_penalty 60 c9State 0 0 [] [] false []).1
     (applyPhysics c9Apple 0) (by decide),
   (claim_C9_offscreen_no_penalty 60 c9State 0 0 [] [] false []).2.2⟩

/-! ### C10 — bomb slicing: penalty without score change -/

/-- Claim C10: the engine's handler for a collided unsliced bomb leaves
`score` and `max_combo` unchanged, adds one to `missed_fruits`, zeroes
`combo`, and turns `game_over` on exactly when it was already on or the new
missed count reaches the threshold; a collided non-bomb leaves
`missed_fruits` unchanged.  In a Playing tick whose detected collision list
is a single unsliced bomb, the same four facts hold for the tick's score
state. -/
theorem claim_C10_bomb_slice (sc : ScoreState) (f : Fruit) :
    (f.sliced = false → f.type = FruitType.bomb →
      ((processSliced sc f).score = sc.score ∧
       (processSliced sc f).max_combo = sc.max_combo ∧
       (processSliced sc f).missed_fruits = sc.missed_fruits + 1 ∧
       (processSliced sc f).combo = 0 ∧
       ((processSliced sc f).game_over = true ↔
         (sc.game_over = true ∨ MAX_MISSED_FRUITS ≤ sc.missed_fruits + 1)))) ∧
    (f.sliced = false → f.type ≠ FruitType.bomb →
      (processSliced sc f).missed_fruits = sc.missed_fruits) ∧
    (∀ (d : ℚ) (s : EngineState) (dt now : ℚ) (idx mid : List Pt) (spawned : List Fruit),
      detectMultipleCollisions idx mid s.fruits = [f] → f.sliced = false →
      f.type = FruitType.bomb →
      ((playingTick d s dt now idx mid true spawned).score.score = s.score.score ∧
       (playingTick d s dt now idx mid true spawned).score.max_combo = s.score.max_combo ∧
       (playingTick d s dt now idx mid true spawned).score.missed_fruits =
         s.score.missed_fruits + 1 ∧
       (playingTick d s dt now idx mid true spawned).score.combo = 0)) := by
  have hbomb : f.sliced = false → f.type = FruitType.bomb →
      processSliced sc f = incrementMissedFruits sc := by
    intro hs ht
    rw [processSliced, if_neg (by rw [hs]; exact Bool.false_ne_true), if_pos ht]
  refine ⟨?_, ?_, ?_⟩
  · intro hs ht
    rw [hbomb hs ht]
    obtain ⟨h1, h2, h3, h4⟩ := incrementMissed_proj sc
    exact ⟨h1, h2, h3, h4, incrementMissed_gameOver sc⟩
  · intro hs ht
    rw [processSliced, if_neg (by rw [hs]; exact Bool.false_ne_true), if_neg ht]
    rfl
  · intro d s dt now idx mid spawned hdet hs ht
    have hbombS : processSliced s.score f = incrementMissedFruits s.score := by
      rw [processSliced, if_neg (by rw [hs]; exact Bool.false_ne_true), if_pos ht]
    have hsc : (playingTick d s dt now idx mid true spawned).score =
        updateGameTime d (incrementMissedFruits s.score) dt := by
      rw [playingTick_score]
      simp only [if_pos trivial, hdet, List.foldl_cons, List.foldl_nil, hbombS]
    obtain ⟨g1, g2, g3, g4⟩ := updateGameTime_proj d (incrementMissedFruits s.score) dt
    obtain ⟨k1, k2, k3, k4⟩ := incrementMissed_proj s.score
    rw [hsc]
    exact ⟨by rw [g1, k1], by rw [g3, k2], by rw [g4, k3], by rw [g2, k4]⟩

/-- Concrete bomb and tick for the C10 witness. -/
def c10Bomb : Fruit :=
  { x := 50, y := 0, radius := 40, type := FruitType.bomb
    velocity_x := 0, velocity_y := 0, angular_velocity := 0, rotation := 0
    sliced := false, sliced_time := 0 }

def c10Stroke : List Pt := [⟨0, 0⟩, ⟨100, 0⟩]

def c10State : EngineState :=
  { gameState := GState.playing, endReason := none
    score := initialScoreState, fruits := [c10Bomb] }

/-- Witness for C10: slicing the concrete bomb adds a miss and keeps the
score at zero, both pointwise and across the concrete tick. -/
theorem claim_C10_bomb_slice_witness :
    ((processSliced initialScoreState c10Bomb).score = 0 ∧
      (processSliced initialScoreState c10Bomb).missed_fruits = 1) ∧
    (playingTick 60 c10State 1 0 c10Stroke [] true []).score.missed_fruits = 1 := by
  have h := claim_C10_bomb_slice initialScoreState c10Bomb
  have h1 := h.1 rfl rfl
  have h3 := h.2.2 60 c10State 1 0 c10Stroke [] [] (by decide) rfl rfl
  exact ⟨⟨h1.1, h1.2.2.1⟩, h3.2.2.1⟩

/-! ### C3 — the end reason never distinguishes the cause -/

def c3Bomb : Fruit :=
  { x := 50, y := 0, radius := 40, type := FruitType.bomb
    velocity_x := 0, velocity_y := 0, angular_velocity := 0, rotation := 0
    sliced := false, sliced_time := 0 }

def c3Stroke : List Pt := [⟨0, 0⟩, ⟨100, 0⟩]

def c3State : EngineState :=
  { gameState := GState.playing, endReason := none
    score := { score := 0, combo := 0, max_combo := 0, missed_fruits := 4
               game_time := 0, game_over := false }
    fruits := [c3Bomb] }

/-- Counterexample to C3 as stated: on this tick the game ends by life
exhaustion — the fifth missed fruit arrives while the game time (0.01 s) is
far below the 60-second duration — yet the recorded end reason is the
time-expiry token `'time_over'` (engine.py line 481 passes that constant on
every game-over), so the reason does not distinguish the two causes. -/
theorem claim_C3_counterexample :
    (playingTick 60 c3State (1/100) 0 c3Stroke [] true []).score.missed_fruits = 5 ∧
    (playingTick 60 c3State (1/100) 0 c3Stroke [] true []).score.game_time < 60 ∧
    (playingTick 60 c3State (1/100) 0 c3Stroke [] true []).gameState = GState.gameOver ∧
    (playingTick 60 c3State (1/100) 0 c3Stroke [] true []).endReason =
      some "time_over" := by
  decide

/-- Claim C3 (amended): in the Playing state, the game does transition to
GameOver on the tick in which the score manager reports game over, but the
end reason it carries is always the constant `'time_over'`, whichever of the
two conditions (time expiry or life exhaustion) triggered. -/
theorem claim_C3_amended (d : ℚ) (s : EngineState) (dt now : ℚ)
    (idx mid : List Pt) (swipe : Bool) (spawned : List Fruit)
    (hplay : s.gameState = GState.playing)
    (hover : (playingTick d s dt now idx mid swipe spawned).score.game_over = true) :
    (playingTick d s dt now idx mid swipe spawned).gameState = GState.gameOver ∧
    (playingTick d s dt now idx mid swipe spawned).endReason = some "time_over" := by
  rw [playingTick_score] at hover
  constructor <;>
    · simp only [playingTick]
      rw [if_pos hover]

def c3WitState : EngineState :=
  { gameState := GState.playing, endReason := none
    score := initialScoreState, fruits := [] }

/-- Witness for the amended C3: a 60-second time step on a fresh 60-second
session ends the game with reason `'time_over'`. -/
theorem claim_C3_amended_witness :
    (playingTick 60 c3WitState 60 0 [] [] false []).gameState = GState.gameOver ∧
    (playingTick 60 c3WitState 60 0 [] [] false []).endReason = some "time_over" :=
  claim_C3_amended 60 c3WitState 60 0 [] [] false [] rfl (by decide)

/-! ### C7 / C8 — spawn-velocity solver -/

theorem horizRange_bounds (x : ℚ) :
    -(7/10) ≤ (calcHorizontalParamRange x).1 ∧
    (calcHorizontalParamRange x).1 ≤ (calcHorizontalParamRange x).2 ∧
    (calcHorizontalParamRange x).2 ≤ 7/10 := by
  rw [calcHorizontalParamRange]
  split
  · norm_num
  · split <;> norm_num

theorem clampBranch_fst_ge (sqrtf : ℚ → ℚ) (minH maxH vert cs : ℚ) :
    minH ≤ (clampBranch sqrtf minH maxH vert cs).1 :=
  le_max_left _ _

theorem clampBranch_fst_le (sqrtf : ℚ → ℚ) (minH maxH vert cs : ℚ)
    (hle : minH ≤ maxH) : (clampBranch sqrtf minH maxH vert cs).1 ≤ maxH :=
  max_le hle (min_le_left _ _)

theorem renormalize_fst_pos (sqrtf : ℚ → ℚ) (v : ℚ × ℚ) (h : 0 < v.1) :
    0 < (renormalize sqrtf v).1 := by
  rw [renormalize]
  split
  next hnl => exact div_pos h hnl
  next => exact h

theorem clampBranchSqrtArgs_nonneg (sqrtf : ℚ → ℚ) (minH maxH vert : ℚ)
    (hminH : -(7/10) ≤ minH) (hle : minH ≤ maxH) (hmaxH : maxH ≤ 7/10)
    (hvert0 : 0 ≤ vert) (hvert2 : vert ^ 2 ≤ 144000) :
    ∀ a ∈ clampBranchSqrtArgs sqrtf minH maxH vert (FRUIT_VELOCITY + 400), 0 ≤ a := by
  intro a ha
  have h900 : (FRUIT_VELOCITY : ℚ) + 400 = 900 := by norm_num [FRUIT_VELOCITY]
  simp only [clampBranchSqrtArgs, List.mem_cons, List.not_mem_nil, or_false] at ha
  rcases ha with ha | ha
  · subst ha
    rw [h900]
    have hsq : (-vert / (900:ℚ)) ^ 2 = vert ^ 2 / 810000 := by ring
    rw [hsq]
    linarith
  · subst ha
    have h1 : -(7/10) ≤ max minH (min maxH (if minH < 0 ∧ maxH < 0
        then -sqrtf (1 - (-vert / (FRUIT_VELOCITY + 400)) ^ 2)
        else sqrtf (1 - (-vert / (FRUIT_VELOCITY + 400)) ^ 2))) :=
      le_trans hminH (le_max_left _ _)
    have h2 : max minH (min maxH (if minH < 0 ∧ maxH < 0
        then -sqrtf (1 - (-vert / (FRUIT_VELOCITY + 400)) ^ 2)
        else sqrtf (1 - (-vert / (FRUIT_VELOCITY + 400)) ^ 2))) ≤ 7/10 :=
      le_trans (max_le hle (min_le_left _ _)) hmaxH
    have h3 := sq_le_sq' h1 h2
    nlinarith [h3]

theorem calcTrajectory_fst_pos (sqrtf : ℚ → ℚ) (startX startY maxH hp ox oy : ℚ)
    (minH : ℚ) (hmin : 0 < minH) (hsum : 0 < hp + ox) :
    0 < (calcTrajectory sqrtf startX startY (minH, maxH) hp ox oy).1 := by
  have hbr : ∀ vert, 0 < (clampBranch sqrtf minH maxH vert (FRUIT_VELOCITY + 400)).1 :=
    fun vert => lt_of_lt_of_le hmin (clampBranch_fst_ge sqrtf minH maxH vert _)
  simp only [calcTrajectory]
  apply renormalize_fst_pos
  split
  next => exact hbr _
  next =>
    split
    next => exact hbr _
    next => exact hsum

/-- Claim C8: for a spawn at `x0 = screenWidth/4` (which is more than 100
pixels left of the screen center), the chosen horizontal-parameter range is
`[0.3, 0.7]`, and for every value of the random draws and every square-root
function — hence whichever vertical-speed clamping branch runs — the
horizontal component of the solved unit vector, and the final spawn velocity
`vx` obtained by scaling it with the launch speed, are strictly positive. -/
theorem claim_C8_left_spawn_vx_pos (sqrtf : ℚ → ℚ) (hp ox oy : ℚ)
    (hhp1 : 3/10 ≤ hp) (hhp2 : hp ≤ 7/10) (hox : |ox| ≤ 1/10) (hoy : |oy| ≤ 1/10) :
    calcHorizontalParamRange (WINDOW_WIDTH / 4) = (3/10, 7/10) ∧
    0 < (calcTrajectory sqrtf (WINDOW_WIDTH / 4) WINDOW_HEIGHT
          (calcHorizontalParamRange (WINDOW_WIDTH / 4)) hp ox oy).1 ∧
    0 < (calcTrajectory sqrtf (WINDOW_WIDTH / 4) WINDOW_HEIGHT
          (calcHorizontalParamRange (WINDOW_WIDTH / 4)) hp ox oy).1 *
        (FRUIT_VELOCITY + 400) := by
  have hrange : calcHorizontalParamRange (WINDOW_WIDTH / 4) = (3/10, 7/10) := by
    rw [calcHorizontalParamRange,
      if_pos (show (WINDOW_WIDTH / 4 : ℚ) < 400 - 100 by norm_num [WINDOW_WIDTH])]
  have hox1 : -(1/10) ≤ ox := (abs_le.mp hox).1
  have hmain : 0 < (calcTrajectory sqrtf (WINDOW_WIDTH / 4) WINDOW_HEIGHT
      (calcHorizontalParamRange (WINDOW_WIDTH / 4)) hp ox oy).1 := by
    rw [hrange]
    exact calcTrajectory_fst_pos sqrtf _ _ _ hp ox oy (3/10) (by norm_num)
      (by linarith)
  exact ⟨hrange, hmain, mul_pos hmain (by norm_num [FRUIT_VELOCITY])⟩

/-- Witness for C8: at `hp = 1/2` with zero jitter (and the trivial
under-approximating square root), the range is the positive one and the
solved horizontal component is positive. -/
theorem claim_C8_left_spawn_vx_pos_witness :
    calcHorizontalParamRange (WINDOW_WIDTH / 4) = (3/10, 7/10) ∧
    0 < (calcTrajectory (fun _ => 0) (WINDOW_WIDTH / 4) WINDOW_HEIGHT
          (calcHorizontalParamRange (WINDOW_WIDTH / 4)) (1/2) 0 0).1 := by
  have h := claim_C8_left_spawn_vx_pos (fun _ => 0) (1/2) 0 0
    (by norm_num) (by norm_num) (by norm_num) (by norm_num)
  exact ⟨h.1, h.2.1⟩

/-- Claim C7: for every spawn position `x0` in the allowed bottom-edge range
(`y0` is the screen height), every admissible random draw and every
square-root function `sqrtf` satisfying the defining under-approximation
properties of a real square root (`0 ≤ sqrtf q` and `(sqrtf q)² ≤ q` for
`q ≥ 0`), every argument fed to `math.sqrt` during the spawn-velocity
computation — including the clamping branches that re-derive one component
from the other via `sqrt(1 − c²)` — is nonnegative; the `max(·, 100)` height
clamp guarantees this, so the computation stays real-valued. -/
theorem claim_C7_sqrt_args_nonneg (sqrtf : ℚ → ℚ)
    (hsq : ∀ q : ℚ, 0 ≤ q → 0 ≤ sqrtf q ∧ (sqrtf q) ^ 2 ≤ q)
    (x0 : ℚ) (hx0low : FRUIT_RADIUS ≤ x0) (hx0high : x0 ≤ WINDOW_WIDTH - FRUIT_RADIUS)
    (hp ox oy : ℚ)
    (hhp1 : (calcHorizontalParamRange x0).1 ≤ hp)
    (hhp2 : hp ≤ (calcHorizontalParamRange x0).2)
    (hox : |ox| ≤ 1/10) (hoy : |oy| ≤ 1/10) :
    ∀ a ∈ calcTrajectorySqrtArgs sqrtf x0 WINDOW_HEIGHT 400 300
        (calcHorizontalParamRange x0) hp ox oy, 0 ≤ a := by
  obtain ⟨hr1, hrle, hr3⟩ := horizRange_bounds x0
  have hhplow : -(7/10) ≤ hp := le_trans hr1 hhp1
  have hhphigh : hp ≤ 7/10 := le_trans hhp2 hr3
  have hhpsq : hp ^ 2 ≤ (7/10 : ℚ) ^ 2 := sq_le_sq' hhplow hhphigh
  have hminReq : (max (400 - WINDOW_HEIGHT) 100 : ℚ) = 100 := by
    norm_num [WINDOW_HEIGHT]
  have hmaxReq : (max (480 - WINDOW_HEIGHT) 100 : ℚ) = 100 := by
    norm_num [WINDOW_HEIGHT]
  have hargmin : (2 * GRAVITY * max (400 - WINDOW_HEIGHT) 100 : ℚ) = 144000 := by
    rw [hminReq]; norm_num [GRAVITY]
  have hargmax : (2 * GRAVITY * max (480 - WINDOW_HEIGHT) 100 : ℚ) = 144000 := by
    rw [hmaxReq]; norm_num [GRAVITY]
  have hsmax := hsq (2 * GRAVITY * max (480 - WINDOW_HEIGHT) 100)
    (by rw [hargmax]; norm_num)
  have hsmin := hsq (2 * GRAVITY * max (400 - WINDOW_HEIGHT) 100)
    (by rw [hargmin]; norm_num)
  intro a ha
  simp only [calcTrajectorySqrtArgs] at ha
  rw [List.mem_append, List.mem_append] at ha
  rcases ha with (hh | hb) | hlast
  · simp only [List.mem_cons, List.not_mem_nil, or_false] at hh
    rcases hh with h | h | h | h
    · subst h; positivity
    · subst h; linarith
    · subst h; rw [hargmin]; norm_num
    · subst h; rw [hargmax]; norm_num
  · split at hb
    next =>
      exact clampBranchSqrtArgs_nonneg sqrtf _ _ _ hr1 hrle hr3 hsmax.1
        (by rw [hargmax] at hsmax; exact hsmax.2) a hb
    next =>
      split at hb
      next =>
        exact clampBranchSqrtArgs_nonneg sqrtf _ _ _ hr1 hrle hr3 hsmin.1
          (by rw [hargmin] at hsmin; exact hsmin.2) a hb
      next => exact absurd hb (List.not_mem_nil a)
  · simp only [List.mem_singleton] at hlast
    subst hlast
    positivity

/-- Witness for C7: the argument list evaluated at `x0 = 200`, `hp = 1/2`,
zero jitter and the trivial under-approximating square root consists of
nonnegative rationals. -/
theorem claim_C7_sqrt_args_nonneg_witness :
    (calcTrajectorySqrtArgs (fun _ => 0) 200 WINDOW_HEIGHT 400 300
        (calcHorizontalParamRange 200) (1/2) 0 0).Forall (fun a => 0 ≤ a) := by
  rw [List.forall_iff_forall_mem]
  exact claim_C7_sqrt_args_nonneg (fun _ => 0)
    (fun q hq => ⟨le_refl 0, by simpa using hq⟩)
    200 (by norm_num [FRUIT_RADIUS]) (by norm_num [WINDOW_WIDTH, FRUIT_RADIUS])
    (1/2) 0 0
    (by norm_num [calcHorizontalParamRange])
    (by norm_num [calcHorizontalParamRange])
    (by norm_num) (by norm_num)

end FruitNinja
